import Mathlib

/-!
Shallow embedding of `src/source_code/main.c` (Tomatotificatorul), an AVR
irrigation controller: the tick interrupt handler `TIM0_COMPA_vect`, the
button interrupt handler `INT0_vect`, and the per-tick body of the `main`
loop, together with proofs of the specification claims about them.

The tick-source calibration (`TIM0_OVF_vect`, `g_overflows`) only decides
when a tick fires, not what it does; ticks are modelled as events.
-/

namespace Tomato

/-- `HOURLY_ERROR_SEC` (main.c line 77). -/
def HOURLY_ERROR_SEC : Nat := 1

/-- `FULL_DAY_TICKS = ((uint32_t)3600 + HOURLY_ERROR_SEC) * 24` (main.c line 78). -/
def FULL_DAY_TICKS : Nat := (3600 + HOURLY_ERROR_SEC) * 24

/-- `SOLAR_PANEL_THRESHOLD` (main.c line 60). -/
def SOLAR_PANEL_THRESHOLD : Nat := 553

/-- `WATER_EVENT(hour, min, sec)` (main.c lines 84-87). -/
def WATER_EVENT (hour minute sec : Nat) : Nat := 3600 * hour + 60 * minute + sec

/-- `g_daily_events` (main.c lines 138-151): the static schedule table. -/
def g_daily_events : List Nat :=
  [WATER_EVENT 0 0 5, WATER_EVENT 0 5 0, WATER_EVENT 0 30 0, WATER_EVENT 1 0 0]

/-- Modulus of `uint32_t` arithmetic. -/
def UINT32_MOD : Nat := 2 ^ 32

/-- Modulus of `uint8_t` arithmetic. -/
def UINT8_MOD : Nat := 2 ^ 8

/-- The shared state of main.c: the globals `g_ticks`, `g_water_plant`,
`g_water_button`, `g_led_lock`, `g_duration`, the ISR-static
`pump_start_ticks`, the output pin levels PB0 (pump) and PB2 (status LED),
and `main`'s local `prev_tick`. -/
structure State where
  ticks : Nat
  water_plant : Bool
  water_button : Bool
  led_lock : Bool
  led_on : Bool
  pump_on : Bool
  duration : Nat
  pump_start_ticks : Nat
  prev_tick : Nat

/-- State at boot: all globals zero-initialized except `g_duration = 5`
(main.c line 131); `pump_init` drives PB0 low, `status_led_init` leaves
PB2 low. -/
def initState : State :=
  { ticks := 0, water_plant := false, water_button := false,
    led_lock := false, led_on := false, pump_on := false,
    duration := 5, pump_start_ticks := 0, prev_tick := 0 }

/-- `ISR(INT0_vect)` (main.c lines 229-232): the falling-edge button
interrupt latches the raw request flag. -/
def INT0_vect (st : State) : State := { st with water_button := true }

/-- `ISR(TIM0_COMPA_vect)` (main.c lines 331-408): the once-per-second tick
handler. It increments `g_ticks` (uint32), then, when no run is in
progress, starts one on a pending confirmed manual request (consuming it)
or else on a schedule-table match; a run whose start tick equals the
current tick turns the pump on, lights and locks the LED; a run with
`g_ticks >= pump_start_ticks + g_duration` is stopped (pump off, LED off
and unlocked, sentinel 0 restored); finally `g_ticks` wraps modulo
`FULL_DAY_TICKS`. -/
def TIM0_COMPA_vect (st : State) : State :=
  let t1 := (st.ticks + 1) % UINT32_MOD
  let st1 :=
    if st.pump_start_ticks = 0 then
      if st.water_plant then
        { st with water_plant := false, pump_start_ticks := t1 }
      else if t1 ∈ g_daily_events then
        { st with pump_start_ticks := t1 }
      else
        st
    else
      st
  let st2 :=
    if st1.pump_start_ticks = t1 then
      { st1 with pump_on := true, led_lock := true, led_on := true }
    else
      st1
  let st3 :=
    if st2.pump_start_ticks ≠ 0 ∧ (st2.pump_start_ticks + st2.duration) % UINT32_MOD ≤ t1 then
      { st2 with pump_on := false, led_on := false, led_lock := false, pump_start_ticks := 0 }
    else
      st2
  { st3 with ticks := t1 % FULL_DAY_TICKS }

/-- The duration map of the Duration Controller (main.c lines 527-540):
`duration = 55 * sample / 1023 + 5` in uint32 arithmetic (truncating
division), then stored into the uint8 `g_duration`. -/
def durationFromSample (sample : Nat) : Nat :=
  (55 * sample / 1023 + 5) % UINT8_MOD

/-- One pass of the body of `main`'s loop (main.c lines 510-585), executed
when `g_ticks != prev_tick`. `pressed` models `(PINB & (1 << PB1)) == 0`
(the active-low button level read); `dsample` and `ssample` model
`adc_read(3)` and `adc_read(2)`, which return values in `[0, 1023]`
(10-bit ADC). The body debounces the button, publishes the duration map
of the sample, and toggles the LED when unlocked and the solar sample
reaches the threshold. When `g_ticks == prev_tick` the body is skipped. -/
def mainBody (pressed : Bool) (dsample ssample : Fin 1024) (st : State) : State :=
  if st.ticks ≠ st.prev_tick then
    let st1 := { st with prev_tick := st.ticks }
    let st2 :=
      if st1.water_button ∧ pressed then
        { st1 with water_plant := true, water_button := false }
      else
        st1
    let st3 := { st2 with duration := durationFromSample dsample.val }
    if ¬ st3.led_lock ∧ SOLAR_PANEL_THRESHOLD ≤ ssample.val then
      { st3 with led_on := ! st3.led_on }
    else
      st3
  else
    st

/-- An atomic step of the system: a tick interrupt, a button interrupt, or
one pass of the main loop (with its input samples). -/
inductive Ev where
  | tick : Ev
  | button : Ev
  | loop (pressed : Bool) (dsample ssample : Fin 1024) : Ev

/-- Apply one event to the state. -/
def step (e : Ev) (st : State) : State :=
  match e with
  | .tick => TIM0_COMPA_vect st
  | .button => INT0_vect st
  | .loop pressed ds ss => mainBody pressed ds ss st

/-- Run a list of events, oldest first. -/
def execList (evs : List Ev) (st : State) : State :=
  evs.foldl (fun s e => step e s) st

/-- Run `n` consecutive tick interrupts. -/
def ticksRun (n : Nat) (st : State) : State :=
  execList (List.replicate n Ev.tick) st

/-- Reachability invariant of the system: the day clock is in range, a run
start tick is at most `FULL_DAY_TICKS`, the published duration is in
`[5, 60]`, the LED lock is held exactly when a run is in progress, and the
pump output mirrors the lock. -/
def Inv (st : State) : Prop :=
  st.ticks < FULL_DAY_TICKS ∧
  st.pump_start_ticks ≤ FULL_DAY_TICKS ∧
  5 ≤ st.duration ∧ st.duration ≤ 60 ∧
  (st.led_lock = true ↔ st.pump_start_ticks ≠ 0) ∧
  st.pump_on = st.led_lock

/-- The duration map as the spec's words state it (§4.5): `5 +
round(55 * sample / 1023)`, clamped to `[5, 60]`; round-half-up is
realized on naturals as `(110 * sample + 1023) / 2046`. -/
def specDurationFromSample (sample : Nat) : Nat :=
  max 5 (min 60 (5 + (110 * sample + 1023) / 2046))

/-- A pump run started at day-clock value `t` with `g_duration = d` that
has survived `j` tick handlers past its starting one. -/
def MidRun (t d j : Nat) (s : State) : Prop :=
  s.ticks = t + j ∧ s.pump_start_ticks = t ∧ s.duration = d ∧
  s.pump_on = true ∧ s.led_lock = true

/-- Events that never feed a pressed button level into the main loop:
any interrupt, and main-loop passes whose pin level reads unpressed. -/
def pressFree (e : Ev) : Bool :=
  match e with
  | .loop pressed _ _ => ! pressed
  | _ => true

/-- Number of tick interrupts in an event list. -/
def tickCount : List Ev → Nat
  | [] => 0
  | Ev.tick :: tl => tickCount tl + 1
  | _ :: tl => tickCount tl

/-- Events that cannot change the published DurationSetting away from `d`:
any interrupt, and main-loop passes whose sample maps to `d` itself. -/
def durOk (d : Nat) (e : Ev) : Bool :=
  match e with
  | .loop _ ds _ => durationFromSample ds.val == d
  | _ => true

/-- An idle state at day-clock 4 with the boot duration 5: the next tick
is day-clock 5, the first schedule entry. -/
def c2State : State := { initState with ticks := 4 }

/-- Seven ticks (the schedule entry at second 5 starts a run with the
boot duration 5), then a main-loop pass that publishes duration 32
(sample 512) while the run is in progress, then three more ticks,
reaching day-clock 10. -/
def c2TraceB : List Ev :=
  List.replicate 7 Ev.tick ++ [Ev.loop false 512 0] ++ List.replicate 3 Ev.tick

/-- A run window of five ticks interleaved with a main-loop pass that
republishes duration 5 (sample 0) and a button edge. -/
def c2Evs : List Ev :=
  [Ev.tick, Ev.loop false 0 0, Ev.tick, Ev.button, Ev.tick, Ev.tick, Ev.tick]

/-- A state with a pump run in progress, for instantiating theorems. -/
def c1State : State :=
  { initState with ticks := 7, pump_start_ticks := 5, duration := 5, pump_on := true, led_lock := true, led_on := true }

/-- A state with a pump run in progress and a longer duration setting. -/
def c3State : State :=
  { initState with ticks := 7, pump_start_ticks := 5, duration := 30, pump_on := true, led_lock := true, led_on := true }

/-- Ten plain ticks from boot: the schedule entry at second 5 starts a
run with the boot duration 5, which therefore stops at tick 10. -/
def c3TraceA : List Ev := List.replicate 10 Ev.tick

/-- The same ten ticks, but with one main-loop pass after the fifth tick
that publishes duration 60 (sample 1023) while the run is in progress. -/
def c3TraceB : List Ev :=
  List.replicate 5 Ev.tick ++ [Ev.loop false 1023 0] ++ List.replicate 5 Ev.tick

/-- An idle state at day-clock 4 with a confirmed manual request pending;
the next tick (day-clock 5) also matches the schedule entry at second 5. -/
def c4State : State := { initState with ticks := 4, water_plant := true }

/-- One raw button edge, then a tick boundary at which the pin no longer
reads pressed. -/
def c9Prefix : List Ev := [Ev.button, Ev.tick, Ev.loop false 0 0]

/-- The same edge followed by a later tick boundary at which the pin
reads pressed, with no further edge in between. -/
def c9Trace : List Ev := c9Prefix ++ [Ev.tick, Ev.loop true 0 0]

/-- Boot state with the raw button flag latched. -/
def c10State : State := { initState with water_button := true }

/-- A press-free stretch: a tick, a boundary with the pin unpressed, and
another tick, leaving the state at a fresh tick boundary. -/
def c10Evs : List Ev := [Ev.tick, Ev.loop false 0 0, Ev.tick]

/-! ## Helper lemmas -/

lemma full_day_ticks_eq : FULL_DAY_TICKS = 86424 := by
  norm_num [FULL_DAY_TICKS, HOURLY_ERROR_SEC]

lemma mod32_small {n : Nat} (h : n < 2 ^ 32) : n % UINT32_MOD = n := by
  unfold UINT32_MOD
  exact Nat.mod_eq_of_lt h

lemma durationFromSample_eq {s : Nat} (hs : s ≤ 1023) :
    durationFromSample s = 55 * s / 1023 + 5 := by
  have h1 : 55 * s / 1023 ≤ 55 := by
    have h2 : 55 * s ≤ 55 * 1023 := Nat.mul_le_mul_left _ hs
    have h3 : 55 * s / 1023 ≤ 55 * 1023 / 1023 := Nat.div_le_div_right h2
    omega
  have h4 : 55 * s / 1023 + 5 < UINT8_MOD := by unfold UINT8_MOD; omega
  unfold durationFromSample
  exact Nat.mod_eq_of_lt h4

lemma durationFromSample_bounds {s : Nat} (hs : s ≤ 1023) :
    5 ≤ durationFromSample s ∧ durationFromSample s ≤ 60 := by
  have h1 : 55 * s / 1023 ≤ 55 := by
    have h2 : 55 * s ≤ 55 * 1023 := Nat.mul_le_mul_left _ hs
    have h3 : 55 * s / 1023 ≤ 55 * 1023 / 1023 := Nat.div_le_div_right h2
    omega
  rw [durationFromSample_eq hs]
  omega

lemma inv_tick (st : State) (h : Inv st) : Inv (TIM0_COMPA_vect st) := by
  obtain ⟨h1, h2, h3, h4, h5, h6⟩ := h
  have hf := full_day_ticks_eq
  have ht1 : (st.ticks + 1) % UINT32_MOD = st.ticks + 1 := mod32_small (by omega)
  unfold TIM0_COMPA_vect Inv
  simp only [ht1]
  split_ifs <;> simp_all <;> omega

lemma mainBody_ticks (p : Bool) (ds ss : Fin 1024) (st : State) :
    (mainBody p ds ss st).ticks = st.ticks := by
  simp only [mainBody]
  split_ifs <;> rfl

lemma mainBody_pump_start (p : Bool) (ds ss : Fin 1024) (st : State) :
    (mainBody p ds ss st).pump_start_ticks = st.pump_start_ticks := by
  simp only [mainBody]
  split_ifs <;> rfl

lemma mainBody_pump_on (p : Bool) (ds ss : Fin 1024) (st : State) :
    (mainBody p ds ss st).pump_on = st.pump_on := by
  simp only [mainBody]
  split_ifs <;> rfl

lemma mainBody_led_lock (p : Bool) (ds ss : Fin 1024) (st : State) :
    (mainBody p ds ss st).led_lock = st.led_lock := by
  simp only [mainBody]
  split_ifs <;> rfl

lemma mainBody_duration (p : Bool) (ds ss : Fin 1024) (st : State) :
    (mainBody p ds ss st).duration = st.duration ∨
    (mainBody p ds ss st).duration = durationFromSample ds.val := by
  simp only [mainBody]
  split_ifs <;> simp

lemma inv_mainBody (p : Bool) (ds ss : Fin 1024) (st : State) (h : Inv st) :
    Inv (mainBody p ds ss st) := by
  obtain ⟨h1, h2, h3, h4, h5, h6⟩ := h
  have hds := durationFromSample_bounds (Nat.lt_succ_iff.mp ds.isLt)
  have hdur := mainBody_duration p ds ss st
  refine ⟨?_, ?_, ?_, ?_, ?_, ?_⟩
  · rw [mainBody_ticks]; exact h1
  · rw [mainBody_pump_start]; exact h2
  · rcases hdur with h' | h' <;> rw [h'] <;> omega
  · rcases hdur with h' | h' <;> rw [h'] <;> omega
  · rw [mainBody_led_lock, mainBody_pump_start]; exact h5
  · rw [mainBody_pump_on, mainBody_led_lock]; exact h6

lemma inv_button (st : State) (h : Inv st) : Inv (INT0_vect st) := by
  obtain ⟨h1, h2, h3, h4, h5, h6⟩ := h
  unfold INT0_vect Inv
  simp_all

lemma inv_step (e : Ev) (st : State) (h : Inv st) : Inv (step e st) := by
  cases e with
  | tick => exact inv_tick st h
  | button => exact inv_button st h
  | loop p ds ss => exact inv_mainBody p ds ss st h

lemma inv_execList (evs : List Ev) : ∀ st : State, Inv st → Inv (execList evs st) := by
  induction evs with
  | nil => intro st h; exact h
  | cons e tl ih => intro st h; exact ih (step e st) (inv_step e st h)

lemma inv_initState : Inv initState := by
  unfold Inv initState
  norm_num [full_day_ticks_eq]

lemma inv_reachable (evs : List Ev) : Inv (execList evs initState) :=
  inv_execList evs initState inv_initState

lemma execList_append (a b : List Ev) (st : State) :
    execList (a ++ b) st = execList b (execList a st) := by
  simp [execList, List.foldl_append]

lemma ticksRun_zero (st : State) : ticksRun 0 st = st := rfl

lemma ticksRun_succ_back (n : Nat) (st : State) :
    ticksRun (n + 1) st = TIM0_COMPA_vect (ticksRun n st) := by
  unfold ticksRun
  rw [List.replicate_succ', execList_append]
  rfl

lemma midRun_step (t d j : Nat) (s : State) (hm : MidRun t d j s)
    (hwrap : t + d ≤ FULL_DAY_TICKS) (ht0 : 0 < t) (hj : j + 1 < d) :
    MidRun t d (j + 1) (TIM0_COMPA_vect s) := by
  obtain ⟨hticks, hps, hdur, hpump, hlock⟩ := hm
  have hf := full_day_ticks_eq
  have hm1 : (t + j + 1) % UINT32_MOD = t + j + 1 := mod32_small (by omega)
  have hm2 : (t + d) % UINT32_MOD = t + d := mod32_small (by omega)
  unfold TIM0_COMPA_vect MidRun
  simp only [hticks, hps, hdur, hpump, hlock, hm1]
  split_ifs with h1 h2 h3 <;> simp_all <;> omega

lemma midRun_stop (t d : Nat) (s : State) (hm : MidRun t d (d - 1) s)
    (hwrap : t + d ≤ FULL_DAY_TICKS) (ht0 : 0 < t) (hd0 : 0 < d) :
    (TIM0_COMPA_vect s).pump_on = false ∧
    (TIM0_COMPA_vect s).pump_start_ticks = 0 ∧
    (TIM0_COMPA_vect s).led_lock = false ∧
    (TIM0_COMPA_vect s).ticks = (t + d) % FULL_DAY_TICKS := by
  obtain ⟨hticks, hps, hdur, hpump, hlock⟩ := hm
  have hf := full_day_ticks_eq
  have hsum : t + (d - 1) + 1 = t + d := by omega
  have hm1 : (t + d) % UINT32_MOD = t + d := mod32_small (by omega)
  unfold TIM0_COMPA_vect
  simp only [hticks, hps, hdur, hpump, hlock, hsum, hm1]
  split_ifs with h1 h2 h3 <;> simp_all

lemma midRun_start (st : State) (t d : Nat) (hps : st.pump_start_ticks = 0)
    (ht : st.ticks + 1 = t) (hd : st.duration = d)
    (htrig : st.water_plant = true ∨ t ∈ g_daily_events)
    (hwrap : t + d ≤ FULL_DAY_TICKS) (hd0 : 0 < d) :
    MidRun t d 0 (TIM0_COMPA_vect st) := by
  have hf := full_day_ticks_eq
  have hm1 : (st.ticks + 1) % UINT32_MOD = t := by
    rw [ht]; exact mod32_small (by omega)
  have hm2 : (t + d) % UINT32_MOD = t + d := mod32_small (by omega)
  unfold TIM0_COMPA_vect MidRun
  simp only [hps, hd, hm1]
  rcases htrig with hwp | hev
  · simp only [hwp]
    split_ifs with h1 h2 h3 <;> simp_all
    omega
  · split_ifs with h1 h2 h3 h4 h5 <;> simp_all <;> omega

lemma midRun_iterate (t d : Nat) (s : State) (h0 : MidRun t d 0 s)
    (hwrap : t + d ≤ FULL_DAY_TICKS) (ht0 : 0 < t) :
    ∀ j, j < d → MidRun t d j (ticksRun j s) := by
  intro j
  induction j with
  | zero => intro _; exact h0
  | succ n ih =>
      intro hlt
      rw [ticksRun_succ_back]
      exact midRun_step t d n (ticksRun n s) (ih (by omega)) hwrap ht0 hlt

lemma midRun_button (t d j : Nat) (s : State) (hm : MidRun t d j s) :
    MidRun t d j (INT0_vect s) := hm

lemma midRun_mainBody (t d j : Nat) (p : Bool) (ds ss : Fin 1024) (s : State)
    (hm : MidRun t d j s) (hdur : durationFromSample ds.val = d) :
    MidRun t d j (mainBody p ds ss s) := by
  obtain ⟨h1, h2, h3, h4, h5⟩ := hm
  refine ⟨?_, ?_, ?_, ?_, ?_⟩
  · rw [mainBody_ticks]; exact h1
  · rw [mainBody_pump_start]; exact h2
  · rcases mainBody_duration p ds ss s with h | h
    · rw [h]; exact h3
    · rw [h]; exact hdur
  · rw [mainBody_pump_on]; exact h4
  · rw [mainBody_led_lock]; exact h5

lemma noTick_frozen (evs : List Ev) : ∀ s : State, tickCount evs = 0 →
    (execList evs s).pump_on = s.pump_on ∧
    (execList evs s).pump_start_ticks = s.pump_start_ticks ∧
    (execList evs s).ticks = s.ticks := by
  induction evs with
  | nil => intro s _; exact ⟨rfl, rfl, rfl⟩
  | cons e tl ih =>
      intro s h
      cases e with
      | tick => simp [tickCount] at h
      | button => exact ih (INT0_vect s) (by simpa [tickCount] using h)
      | loop p ds ss =>
          obtain ⟨a, b, c⟩ := ih (mainBody p ds ss s) (by simpa [tickCount] using h)
          exact ⟨a.trans (mainBody_pump_on p ds ss s),
                 b.trans (mainBody_pump_start p ds ss s),
                 c.trans (mainBody_ticks p ds ss s)⟩

lemma c2_run (t d : Nat) (hwrap : t + d ≤ FULL_DAY_TICKS) (ht0 : 0 < t) :
    ∀ (evs : List Ev) (j : Nat) (s : State),
      MidRun t d j s → j < d → (∀ e ∈ evs, durOk d e = true) →
      j + tickCount evs ≤ d →
      ((execList evs s).pump_on = true ↔ j + tickCount evs < d) ∧
      (execList evs s).pump_start_ticks = (if j + tickCount evs < d then t else 0) ∧
      (execList evs s).ticks = (t + (j + tickCount evs)) % FULL_DAY_TICKS := by
  have hf := full_day_ticks_eq
  intro evs
  induction evs with
  | nil =>
      intro j s hm hj _ _
      obtain ⟨h1, h2, h3, h4, h5⟩ := hm
      have hlt : j + tickCount ([] : List Ev) < d := by simp [tickCount]; omega
      refine ⟨?_, ?_, ?_⟩
      · rw [show execList [] s = s from rfl, h4]
        simp [hlt]
      · rw [show execList [] s = s from rfl, h2, if_pos hlt]
      · rw [show execList [] s = s from rfl, h1]
        simp only [tickCount]
        exact (Nat.mod_eq_of_lt (by omega)).symm
  | cons e tl ih =>
      intro j s hm hj hall htc
      have he := hall e (by simp)
      have htl : ∀ e' ∈ tl, durOk d e' = true := fun e' h' => hall e' (by simp [h'])
      cases e with
      | button =>
          have hidx : j + tickCount (Ev.button :: tl) = j + tickCount tl := by
            simp [tickCount]
          rw [show execList (Ev.button :: tl) s = execList tl (INT0_vect s) from rfl, hidx]
          exact ih j (INT0_vect s) (midRun_button t d j s hm) hj htl
            (by simp [tickCount] at htc; omega)
      | loop p ds ss =>
          have hdur : durationFromSample ds.val = d := by simpa [durOk] using he
          have hidx : j + tickCount (Ev.loop p ds ss :: tl) = j + tickCount tl := by
            simp [tickCount]
          rw [show execList (Ev.loop p ds ss :: tl) s = execList tl (mainBody p ds ss s)
                from rfl, hidx]
          exact ih j (mainBody p ds ss s) (midRun_mainBody t d j p ds ss s hm hdur) hj htl
            (by simp [tickCount] at htc; omega)
      | tick =>
          have htc' : j + 1 + tickCount tl ≤ d := by simp [tickCount] at htc; omega
          by_cases hlt : j + 1 < d
          · have hm' := midRun_step t d j s hm hwrap ht0 hlt
            have hidx : j + tickCount (Ev.tick :: tl) = j + 1 + tickCount tl := by
              simp [tickCount]; omega
            rw [show execList (Ev.tick :: tl) s = execList tl (TIM0_COMPA_vect s) from rfl,
                hidx]
            exact ih (j + 1) (TIM0_COMPA_vect s) hm' hlt htl htc'
          · have hj' : j = d - 1 := by omega
            have hm' : MidRun t d (d - 1) s := hj' ▸ hm
            have hstop := midRun_stop t d s hm' hwrap ht0 (by omega)
            have htl0 : tickCount tl = 0 := by simp [tickCount] at htc; omega
            obtain ⟨fa, fb, fc⟩ := noTick_frozen tl (TIM0_COMPA_vect s) htl0
            have hidx : j + tickCount (Ev.tick :: tl) = d := by simp [tickCount]; omega
            rw [show execList (Ev.tick :: tl) s = execList tl (TIM0_COMPA_vect s) from rfl,
                hidx]
            refine ⟨?_, ?_, ?_⟩
            · rw [fa, hstop.1]; simp
            · rw [fb, hstop.2.1, if_neg (by omega)]
            · rw [fc, hstop.2.2.2]

lemma tick_water_button (st : State) :
    (TIM0_COMPA_vect st).water_button = st.water_button := by
  simp only [TIM0_COMPA_vect]
  split_ifs <;> rfl

lemma tick_water_plant_false (st : State) (h : st.water_plant = false) :
    (TIM0_COMPA_vect st).water_plant = false := by
  simp only [TIM0_COMPA_vect]
  split_ifs <;> simp_all

lemma mainBody_unpressed_wp (ds ss : Fin 1024) (st : State) :
    (mainBody false ds ss st).water_plant = st.water_plant := by
  simp only [mainBody]
  split_ifs <;> simp_all

lemma mainBody_unpressed_wb (ds ss : Fin 1024) (st : State) :
    (mainBody false ds ss st).water_button = st.water_button := by
  simp only [mainBody]
  split_ifs <;> simp_all

lemma pressFree_keeps (evs : List Ev) : ∀ st : State,
    st.water_button = true → st.water_plant = false →
    (∀ e ∈ evs, pressFree e = true) →
    (execList evs st).water_button = true ∧ (execList evs st).water_plant = false := by
  induction evs with
  | nil => intro st h1 h2 _; exact ⟨h1, h2⟩
  | cons e tl ih =>
      intro st h1 h2 hall
      have hstep : (step e st).water_button = true ∧ (step e st).water_plant = false := by
        cases e with
        | tick =>
            exact ⟨by rw [step, tick_water_button]; exact h1,
                   tick_water_plant_false st h2⟩
        | button => exact ⟨rfl, h2⟩
        | loop p d s =>
            have hp : p = false := by
              simpa [pressFree] using hall (Ev.loop p d s) (by simp)
            subst hp
            exact ⟨by rw [step, mainBody_unpressed_wb]; exact h1,
                   by rw [step, mainBody_unpressed_wp]; exact h2⟩
      exact ih (step e st) hstep.1 hstep.2 (fun e' h' => hall e' (by simp [h']))

/-! ## Claims -/

/-- C1: at most one PumpRun is active at any instant. While a run is in
progress (`pump_start_ticks != 0`), the tick handler either keeps the very
same run or destroys it — it never creates a second one — and it leaves
the confirmed manual request flag untouched (the trigger is ignored);
neither a main-loop pass nor the button interrupt ever changes
`pump_start_ticks`. -/
theorem claim_C1 (st : State) (p : Bool) (ds ss : Fin 1024)
    (hrun : st.pump_start_ticks ≠ 0) :
    ((TIM0_COMPA_vect st).pump_start_ticks = st.pump_start_ticks ∨
      (TIM0_COMPA_vect st).pump_start_ticks = 0) ∧
    (TIM0_COMPA_vect st).water_plant = st.water_plant ∧
    (mainBody p ds ss st).pump_start_ticks = st.pump_start_ticks ∧
    (INT0_vect st).pump_start_ticks = st.pump_start_ticks := by
  refine ⟨?_, ?_, mainBody_pump_start p ds ss st, rfl⟩
  · simp only [TIM0_COMPA_vect, if_neg hrun]
    split_ifs <;> simp
  · simp only [TIM0_COMPA_vect, if_neg hrun]
    split_ifs <;> simp

/-- C1 witness: a state with a run in progress, concrete main-loop inputs. -/
theorem claim_C1_witness :
    c1State.pump_start_ticks ≠ 0 ∧
    (((TIM0_COMPA_vect c1State).pump_start_ticks = c1State.pump_start_ticks ∨
       (TIM0_COMPA_vect c1State).pump_start_ticks = 0) ∧
     (TIM0_COMPA_vect c1State).water_plant = c1State.water_plant ∧
     (mainBody false 0 0 c1State).pump_start_ticks = c1State.pump_start_ticks ∧
     (INT0_vect c1State).pump_start_ticks = c1State.pump_start_ticks) :=
  ⟨by decide, claim_C1 c1State false 0 0 (by decide)⟩

/-- C2 counterexample: the claim says a run starting at tick `t` with
duration `d` (the DurationSetting at creation) keeps the pump on for
exactly `[t, t + d)`, with no day-wrap in the window as the only side
condition. After five ticks a run has started at t = 5 with DurationSetting
5 and `5 + 5 ≤ FULL_DAY_TICKS`, yet along `c2TraceB` — the same prefix
with a mid-run main-loop pass publishing duration 32 (sample 512) — the
pump is still on at day-clock 10, outside `[5, 10)`, because the stop test
re-reads the current `g_duration`. -/
theorem claim_C2_counterexample :
    (ticksRun 5 initState).pump_start_ticks = 5 ∧
    (ticksRun 5 initState).duration = 5 ∧
    (ticksRun 5 initState).pump_on = true ∧
    5 + 5 ≤ FULL_DAY_TICKS ∧
    (execList c2TraceB initState).ticks = 10 ∧
    (execList c2TraceB initState).pump_on = true ∧
    (execList c2TraceB initState).pump_start_ticks = 5 := by decide

/-- C2 as amended: a PumpRun created by the tick handler at day-clock
value `t` while `DurationSetting = d`, provided every DurationSetting
value published while the run is in progress equals `d` and no day wrap
occurs in `[t, t + d)`: along any continuation of ticks, button edges and
such main-loop passes containing at most `d` ticks, the pump output is on
exactly while fewer than `d` ticks have elapsed since the start — switched
on by the handler at tick `t` and switched off by the handler at tick
`t + d` — and the run keeps start tick `t` until it is destroyed. A
mid-run publication of a different value moves the stop (see C3). -/
theorem claim_C2 (st : State) (t d : Nat) (evs : List Ev)
    (hps : st.pump_start_ticks = 0) (ht : st.ticks + 1 = t) (hd : st.duration = d)
    (htrig : st.water_plant = true ∨ t ∈ g_daily_events)
    (hwrap : t + d ≤ FULL_DAY_TICKS) (hd0 : 0 < d)
    (hdur : ∀ e ∈ evs, durOk d e = true) (hj : tickCount evs ≤ d) :
    ((execList evs (TIM0_COMPA_vect st)).pump_on = true ↔ tickCount evs < d) ∧
    (execList evs (TIM0_COMPA_vect st)).pump_start_ticks =
      (if tickCount evs < d then t else 0) ∧
    (execList evs (TIM0_COMPA_vect st)).ticks = (t + tickCount evs) % FULL_DAY_TICKS := by
  have ht0 : 0 < t := by omega
  have hstart := midRun_start st t d hps ht hd htrig hwrap hd0
  have := c2_run t d hwrap ht0 evs 0 (TIM0_COMPA_vect st) hstart (by omega) hdur
    (by omega)
  simpa using this

/-- C2 witness: from day-clock 4 the schedule entry at second 5 starts a
run with duration 5; five ticks interleaved with a republication of
duration 5 and a button edge leave the pump off at day-clock 10. -/
theorem claim_C2_witness :
    c2State.pump_start_ticks = 0 ∧ c2State.ticks + 1 = 5 ∧ c2State.duration = 5 ∧
    (c2State.water_plant = true ∨ 5 ∈ g_daily_events) ∧
    5 + 5 ≤ FULL_DAY_TICKS ∧ 0 < 5 ∧
    (∀ e ∈ c2Evs, durOk 5 e = true) ∧ tickCount c2Evs ≤ 5 ∧
    (((execList c2Evs (TIM0_COMPA_vect c2State)).pump_on = true ↔ tickCount c2Evs < 5) ∧
     (execList c2Evs (TIM0_COMPA_vect c2State)).pump_start_ticks =
       (if tickCount c2Evs < 5 then 5 else 0) ∧
     (execList c2Evs (TIM0_COMPA_vect c2State)).ticks = (5 + tickCount c2Evs) % FULL_DAY_TICKS) :=
  ⟨by decide, by decide, by decide, by decide, by decide, by decide, by decide, by decide,
   claim_C2 c2State 5 5 c2Evs (by decide) (by decide) (by decide) (by decide)
     (by decide) (by decide) (by decide) (by decide)⟩

/-- C3 counterexample: the claim says a DurationSetting published after a
run has started has no effect on when that run stops. Trace A is ten bare
ticks: the run started by the schedule entry at second 5 with duration 5
has stopped by tick 10. Trace B is the same except that one main-loop pass
publishes duration 60 (sample 1023) after the run started: at tick 10 the
run is still in progress, so the mid-run publication moved the stop. -/
theorem claim_C3_counterexample :
    (execList c3TraceA initState).pump_on = false ∧
    (execList c3TraceA initState).pump_start_ticks = 0 ∧
    (execList c3TraceB initState).pump_on = true ∧
    (execList c3TraceB initState).pump_start_ticks = 5 ∧
    (execList c3TraceB initState).duration = 60 := by decide

/-- C3 as amended: the tick handler re-reads `g_duration` on every tick of
a run; a run in progress is destroyed by the next tick exactly when the
incremented clock reaches `pump_start_ticks` plus the *current*
DurationSetting, so a value published mid-run does determine when the run
stops. -/
theorem claim_C3 (st : State)
    (hrun : st.pump_start_ticks ≠ 0) (hon : st.pump_on = true)
    (ht : st.ticks < FULL_DAY_TICKS) (hps : st.pump_start_ticks ≤ FULL_DAY_TICKS)
    (hd : st.duration ≤ 60) :
    ((TIM0_COMPA_vect st).pump_start_ticks = 0 ↔
      st.pump_start_ticks + st.duration ≤ st.ticks + 1) ∧
    ((TIM0_COMPA_vect st).pump_on = true ↔
      st.ticks + 1 < st.pump_start_ticks + st.duration) := by
  have hf := full_day_ticks_eq
  have hm1 : (st.ticks + 1) % UINT32_MOD = st.ticks + 1 := mod32_small (by omega)
  have hm2 : (st.pump_start_ticks + st.duration) % UINT32_MOD =
      st.pump_start_ticks + st.duration := mod32_small (by omega)
  simp only [TIM0_COMPA_vect, if_neg hrun, hm1]
  split_ifs with h1 h2 h3
  all_goals simp_all
  all_goals omega

/-- C3 witness: a run started at tick 5 whose current DurationSetting is
30, observed at day-clock 7. -/
theorem claim_C3_witness :
    c3State.pump_start_ticks ≠ 0 ∧ c3State.pump_on = true ∧
    c3State.ticks < FULL_DAY_TICKS ∧ c3State.pump_start_ticks ≤ FULL_DAY_TICKS ∧
    c3State.duration ≤ 60 ∧
    (((TIM0_COMPA_vect c3State).pump_start_ticks = 0 ↔
        c3State.pump_start_ticks + c3State.duration ≤ c3State.ticks + 1) ∧
     ((TIM0_COMPA_vect c3State).pump_on = true ↔
        c3State.ticks + 1 < c3State.pump_start_ticks + c3State.duration)) :=
  ⟨by decide, by decide, by decide, by decide, by decide,
   claim_C3 c3State (by decide) (by decide) (by decide) (by decide) (by decide)⟩

/-- C4: if the pump is idle, a confirmed manual request is pending and the
incremented day clock also matches a schedule entry, the tick handler
starts exactly one run — attributed to the manual request, which is
consumed — and turns the pump on; the simultaneous schedule match causes
no second start (the run's start tick is the single value `ticks + 1`). -/
theorem claim_C4 (st : State) (hps : st.pump_start_ticks = 0)
    (hwp : st.water_plant = true) (hev : st.ticks + 1 ∈ g_daily_events)
    (ht : st.ticks < FULL_DAY_TICKS) (hd1 : 0 < st.duration) (hd2 : st.duration ≤ 60) :
    (TIM0_COMPA_vect st).pump_start_ticks = st.ticks + 1 ∧
    (TIM0_COMPA_vect st).water_plant = false ∧
    (TIM0_COMPA_vect st).pump_on = true ∧
    (TIM0_COMPA_vect st).led_lock = true := by
  have hf := full_day_ticks_eq
  have hm1 : (st.ticks + 1) % UINT32_MOD = st.ticks + 1 := mod32_small (by omega)
  have hm2 : (st.ticks + 1 + st.duration) % UINT32_MOD = st.ticks + 1 + st.duration :=
    mod32_small (by omega)
  simp only [TIM0_COMPA_vect, hps, hwp, hm1, hm2]
  split_ifs with h1 h2 h3 <;> simp_all

/-- C4 witness: idle at day-clock 4 with a confirmed manual request; the
next tick, day-clock 5, is also the first schedule entry. -/
theorem claim_C4_witness :
    c4State.pump_start_ticks = 0 ∧ c4State.water_plant = true ∧
    c4State.ticks + 1 ∈ g_daily_events ∧ c4State.ticks < FULL_DAY_TICKS ∧
    0 < c4State.duration ∧ c4State.duration ≤ 60 ∧
    ((TIM0_COMPA_vect c4State).pump_start_ticks = c4State.ticks + 1 ∧
     (TIM0_COMPA_vect c4State).water_plant = false ∧
     (TIM0_COMPA_vect c4State).pump_on = true ∧
     (TIM0_COMPA_vect c4State).led_lock = true) :=
  ⟨by decide, by decide, by decide, by decide, by decide, by decide,
   claim_C4 c4State (by decide) (by decide) (by decide) (by decide)
     (by decide) (by decide)⟩

/-- C5: after every complete tick-handler execution the day clock
satisfies `0 ≤ DayClock < FULL_DAY_TICKS` (the left bound is inherent to
`Nat`): every reachable state observed between handler runs is in range,
and the handler always follows the increment with the modulo wrap before
returning. -/
theorem claim_C5 :
    (∀ evs : List Ev, (execList evs initState).ticks < FULL_DAY_TICKS) ∧
    (∀ st : State, (TIM0_COMPA_vect st).ticks =
      ((st.ticks + 1) % UINT32_MOD) % FULL_DAY_TICKS) :=
  ⟨fun evs => (inv_reachable evs).1, fun _ => rfl⟩

/-- C6: at every tick boundary of every execution the status-indicator
lock is held exactly when a PumpRun is active, and no operation other than
the tick handler (which acquires it in the starting tick and releases it
in the stopping tick) ever changes the lock. -/
theorem claim_C6 :
    (∀ evs : List Ev, ((execList evs initState).led_lock = true ↔
      (execList evs initState).pump_start_ticks ≠ 0)) ∧
    (∀ (p : Bool) (ds ss : Fin 1024) (st : State),
      (mainBody p ds ss st).led_lock = st.led_lock) ∧
    (∀ st : State, (INT0_vect st).led_lock = st.led_lock) :=
  ⟨fun evs => (inv_reachable evs).2.2.2.2.1, mainBody_led_lock, fun _ => rfl⟩

/-- C7 counterexample: the claim's formula is `5 + round(55 * s / 1023)`.
At sample 10 the code publishes `5 + (55 * 10) / 1023 = 5` (truncating
division) while the rounded formula yields 6. -/
theorem claim_C7_counterexample :
    durationFromSample 10 = 5 ∧ specDurationFromSample 10 = 6 ∧
    durationFromSample 10 ≠ specDurationFromSample 10 := by decide

/-- C7 as amended: for every 10-bit sample `s ≤ 1023` the published
duration is `5 + 55 * s / 1023` with *truncating* integer division (no
clamp is needed: the value lies in `[5, 60]` by construction); sample 0
yields 5, sample 1023 yields 60, and the map is monotonic. -/
theorem claim_C7 (s s' : Nat) (hs : s ≤ 1023) (hs' : s' ≤ s) :
    durationFromSample s = 55 * s / 1023 + 5 ∧
    5 ≤ durationFromSample s ∧ durationFromSample s ≤ 60 ∧
    durationFromSample 0 = 5 ∧ durationFromSample 1023 = 60 ∧
    durationFromSample s' ≤ durationFromSample s := by
  have h1 := durationFromSample_eq hs
  have h2 := durationFromSample_bounds hs
  have h3 := durationFromSample_eq (le_trans hs' hs)
  refine ⟨h1, h2.1, h2.2, by decide, by decide, ?_⟩
  rw [h1, h3]
  have hmul : 55 * s' ≤ 55 * s := Nat.mul_le_mul_left _ hs'
  have hdiv : 55 * s' / 1023 ≤ 55 * s / 1023 := Nat.div_le_div_right hmul
  omega

/-- C7 witness: the amended map evaluated at samples 1023 and 10. -/
theorem claim_C7_witness :
    1023 ≤ 1023 ∧ 10 ≤ 1023 ∧
    (durationFromSample 1023 = 55 * 1023 / 1023 + 5 ∧
     5 ≤ durationFromSample 1023 ∧ durationFromSample 1023 ≤ 60 ∧
     durationFromSample 0 = 5 ∧ durationFromSample 1023 = 60 ∧
     durationFromSample 10 ≤ durationFromSample 1023) :=
  ⟨by decide, by decide, claim_C7 1023 10 (by decide) (by decide)⟩

/-- C8: DurationSetting is always in `[5, 60]`: it starts at 5 and along
every trace of ticks, button edges and main-loop passes (whose ADC samples
are 10-bit, hence in `[0, 1023]`) the published value stays in range, with
no runtime check involved. -/
theorem claim_C8 (evs : List Ev) :
    5 ≤ (execList evs initState).duration ∧ (execList evs initState).duration ≤ 60 :=
  ⟨(inv_reachable evs).2.2.1, (inv_reachable evs).2.2.2.1⟩

/-- C9 counterexample: the claim says a raw edge whose pin no longer reads
pressed at the next tick boundary never produces a confirmed request.
After one raw edge and a boundary with the pin not pressed, no confirmed
request exists but the raw flag is still latched; a later boundary at
which the pin reads pressed — with no further edge in between — then
produces the confirmed request caused by that original edge. -/
theorem claim_C9_counterexample :
    (execList c9Prefix initState).water_plant = false ∧
    (execList c9Prefix initState).water_button = true ∧
    (execList c9Trace initState).water_plant = true := by decide

/-- C9 as amended: a raw edge whose pin level does not read pressed at a
tick boundary is not promoted at that boundary and starts no run there —
the main-loop pass with an unpressed pin changes neither the confirmed
flag, the raw flag, the run, nor the pump — but the raw flag persists, so
the edge can still be promoted at a later boundary where the pin reads
pressed. -/
theorem claim_C9 (ds ss : Fin 1024) (st : State) :
    (mainBody false ds ss st).water_plant = st.water_plant ∧
    (mainBody false ds ss st).water_button = st.water_button ∧
    (mainBody false ds ss st).pump_start_ticks = st.pump_start_ticks ∧
    (mainBody false ds ss st).pump_on = st.pump_on :=
  ⟨mainBody_unpressed_wp ds ss st, mainBody_unpressed_wb ds ss st,
   mainBody_pump_start false ds ss st, mainBody_pump_on false ds ss st⟩

/-- C10: with the raw flag latched and no confirmed request, any stretch
of events that never feeds a pressed pin level into the main loop (ticks,
further edges, boundaries with the pin unpressed) leaves the raw flag
latched and the confirmed flag clear; at the first later tick boundary at
which the pin reads pressed, the main loop promotes the confirmed request
and clears the raw flag. -/
theorem claim_C10 (st : State) (evs : List Ev) (ds ss : Fin 1024)
    (hwb : st.water_button = true) (hwp : st.water_plant = false)
    (hevs : ∀ e ∈ evs, pressFree e = true)
    (hbd : (execList evs st).ticks ≠ (execList evs st).prev_tick) :
    (execList evs st).water_button = true ∧
    (execList evs st).water_plant = false ∧
    (mainBody true ds ss (execList evs st)).water_plant = true ∧
    (mainBody true ds ss (execList evs st)).water_button = false := by
  obtain ⟨h1, h2⟩ := pressFree_keeps evs st hwb hwp hevs
  refine ⟨h1, h2, ?_, ?_⟩ <;>
  · simp only [mainBody]
    split_ifs <;> simp_all

/-- C10 witness: the raw flag latched at boot, one boundary with the pin
unpressed, then a fresh boundary with the pin pressed. -/
theorem claim_C10_witness :
    c10State.water_button = true ∧ c10State.water_plant = false ∧
    (∀ e ∈ c10Evs, pressFree e = true) ∧
    (execList c10Evs c10State).ticks ≠ (execList c10Evs c10State).prev_tick ∧
    ((execList c10Evs c10State).water_button = true ∧
     (execList c10Evs c10State).water_plant = false ∧
     (mainBody true 0 0 (execList c10Evs c10State)).water_plant = true ∧
     (mainBody true 0 0 (execList c10Evs c10State)).water_button = false) :=
  ⟨by decide, by decide, by decide, by decide,
   claim_C10 c10State c10Evs 0 0 (by decide) (by decide) (by decide) (by decide)⟩

end Tomato
